import Mathlib

/-!
Verification of the message-envelope and streaming-aggregation layer of the
`n8n-nodes-gravity` plugin collection, as a shallow embedding in Lean 4.

The embedding translates, directly from the TypeScript sources:
  * the streaming loops of `sendClaudeRequest` (BedrockService) and
    `sendOpenAIRequest` (OpenAIService), including their chunk callbacks;
  * the chunk formatters `formatStreamChunk` / `createCompletionChunk` of both
    services (the Bedrock pair takes no state parameter; the OpenAI pair does);
  * the `execute` methods of the GravityClaude and GravityOpenAI nodes,
    including the catch branches that replace all outputs with error records;
  * the per-item bodies and item loops of `GravityOutput.execute` and
    `GravityUpdate.execute`, including base-event construction, ID validation,
    the JSON wrapping rules, and the error-handling switches.

External collaborators (the Bedrock/OpenAI clients, the pub/sub publisher,
`JSON.parse`, `Date.now`, `Math.random`) are modelled as environment inputs:
the provider stream is a list of delta events plus an optional terminal
failure, parse results are supplied as `Except Unit Json` oracles, the clock
and the random ID suffix are explicit fields.  The message constructors
`createText`, `createJsonData`, ... of `@gravityai-dev/gravity-server` are
modelled as inert constructors of an inductive type, following the variant
table of the specification (they are external to this repository).
-/

/-- JS falsy-or for strings: `a || b` where the empty string is falsy. -/
def jsOr (a b : String) : String := if a = "" then b else a

/-- The `ChatState` enumeration of `@gravityai-dev/gravity-server`
(external collaborator; the fixed set of lifecycle states). -/
inductive ChatState where
  | idle
  | active
  | thinking
  | responding
  | waiting
  | complete
  | error
  | cancelled
deriving DecidableEq, Repr

/-- The `MessageType` enumeration of `@gravityai-dev/gravity-server`
(external collaborator; the envelope type discriminants). -/
inductive MessageType where
  | TEXT
  | JSON_DATA
  | IMAGE_RESPONSE
  | TOOL_OUTPUT
  | ACTION_SUGGESTION
  | PROGRESS_UPDATE
  | MESSAGE_CHUNK
  | METADATA
deriving DecidableEq, Repr

/-- String value of a `MessageType` discriminant (used in error messages). -/
def MessageType.value : MessageType → String
  | .TEXT => "text"
  | .JSON_DATA => "jsonData"
  | .IMAGE_RESPONSE => "imageResponse"
  | .TOOL_OUTPUT => "toolOutput"
  | .ACTION_SUGGESTION => "actionSuggestion"
  | .PROGRESS_UPDATE => "progressUpdate"
  | .MESSAGE_CHUNK => "messageChunk"
  | .METADATA => "metadata"

/-- JSON values, the carrier for parsed payloads (`JSON.parse` results) and
for n8n item data. -/
inductive Json where
  | null
  | bool (b : Bool)
  | num (n : Int)
  | str (s : String)
  | arr (elems : List Json)
  | obj (fields : List (String × Json))
deriving Repr

/-- Field lookup on a JSON object (`x.k`); `none` on non-objects or missing
keys, modelling JS `undefined`. -/
def Json.getField : Json → String → Option Json
  | .obj fields, k => fields.lookup k
  | _, _ => none

/-- JS truthiness of an optional JSON value (`undefined`, `null`, `false`,
`0`, `""` are falsy). -/
def jsTruthy : Option Json → Bool
  | none => false
  | some .null => false
  | some (.bool b) => b
  | some (.num n) => n != 0
  | some (.str s) => s != ""
  | some (.arr _) => true
  | some (.obj _) => true

/-! ## Streaming services

`sendClaudeRequest` (BedrockService) and `sendOpenAIRequest` (OpenAIService)
both fold over the provider stream with a `fullResponse` accumulator, a
`chunkCount` counter, and an `onChunk(text, chunkCount - 1)` callback for each
truthy delta.  The callback invocations are recorded in arrival order. -/

/-- One event of a Bedrock converse stream, reduced to the only part the
source reads: `chunk.contentBlockDelta?.delta?.text` (`none` models a chunk
with no content-block delta text). -/
structure ClaudeStreamChunk where
  deltaText : Option String
deriving DecidableEq, Repr

/-- One event of an OpenAI chat-completions stream, reduced to the only part
the source reads: `chunk.choices[0]?.delta?.content`. -/
structure OpenAIStreamChunk where
  deltaContent : Option String
deriving DecidableEq, Repr

/-- Accumulator of the streaming loops: the concatenated response, the chunk
counter, and the `(text, chunkIndex)` arguments of all `onChunk` calls made so
far, in order. -/
structure StreamAcc where
  fullResponse : String
  chunkCount : Nat
  onChunkCalls : List (String × Nat)
deriving DecidableEq, Repr

/-- One iteration of the `for await` loop of `sendClaudeRequest`:
`if (chunkAny.contentBlockDelta?.delta?.text)` guards (truthily) the
accumulation `fullResponse += text; chunkCount++; onChunk(text, chunkCount-1)`. -/
def claudeStreamStep (acc : StreamAcc) (c : ClaudeStreamChunk) : StreamAcc :=
  match c.deltaText with
  | some text =>
      if text = "" then acc
      else
        { fullResponse := acc.fullResponse ++ text
          chunkCount := acc.chunkCount + 1
          onChunkCalls := acc.onChunkCalls ++ [(text, acc.chunkCount + 1 - 1)] }
  | none => acc

/-- One iteration of the `for await` loop of `sendOpenAIRequest`:
`const content = chunk.choices[0]?.delta?.content || ''; if (content) ...`. -/
def openAIStreamStep (acc : StreamAcc) (c : OpenAIStreamChunk) : StreamAcc :=
  let content := c.deltaContent.getD ""
  if content = "" then acc
  else
    { fullResponse := acc.fullResponse ++ content
      chunkCount := acc.chunkCount + 1
      onChunkCalls := acc.onChunkCalls ++ [(content, acc.chunkCount + 1 - 1)] }

/-- The stream-processing loop of `sendClaudeRequest` over a finite stream. -/
def sendClaudeRequestCore (chunks : List ClaudeStreamChunk) : StreamAcc :=
  chunks.foldl claudeStreamStep ⟨"", 0, []⟩

/-- The stream-processing loop of `sendOpenAIRequest` over a finite stream. -/
def sendOpenAIRequestCore (chunks : List OpenAIStreamChunk) : StreamAcc :=
  chunks.foldl openAIStreamStep ⟨"", 0, []⟩

/-- A provider stream as seen by one adapter invocation: the delta events
delivered before the stream ended, and `failure = some msg` when the async
iterator then raised an error with message `msg` (mid-stream failure). -/
structure ClaudeStream where
  chunks : List ClaudeStreamChunk
  failure : Option String
deriving DecidableEq, Repr

/-- A provider stream for the OpenAI service, same shape. -/
structure OpenAIStream where
  chunks : List OpenAIStreamChunk
  failure : Option String
deriving DecidableEq, Repr

/-- Run `sendClaudeRequest` on a stream: the accumulator records the `onChunk`
side effects that happened (they persist even when the iterator later
throws); the second component is the promise outcome — `{fullResponse,
chunkCount}` on success, the raised error on mid-stream failure. -/
def sendClaudeRequestRun (s : ClaudeStream) : StreamAcc × Except String (String × Nat) :=
  let acc := sendClaudeRequestCore s.chunks
  match s.failure with
  | some msg => (acc, .error msg)
  | none => (acc, .ok (acc.fullResponse, acc.chunkCount))

/-- Run `sendOpenAIRequest` on a stream, same contract. -/
def sendOpenAIRequestRun (s : OpenAIStream) : StreamAcc × Except String (String × Nat) :=
  let acc := sendOpenAIRequestCore s.chunks
  match s.failure with
  | some msg => (acc, .error msg)
  | none => (acc, .ok (acc.fullResponse, acc.chunkCount))

/-! ## Spec-side aggregator description

The specification (§4.3) describes the Streaming Aggregator by what each
fragment contributes.  These definitions follow the spec's words, to be
compared with the source folds above. -/

/-- Follows the spec's words: each non-empty fragment, starting from running
count `n`, "produces a chunk envelope carrying `{text: fragment, chunkIndex:
currentCount-1}`" in arrival order; "empty fragments are dropped (no chunk
emitted, no count increment)". -/
def specChunkRecords : List String → Nat → List (String × Nat)
  | [], _ => []
  | f :: fs, n =>
      if f = "" then specChunkRecords fs n
      else (f, n) :: specChunkRecords fs (n + 1)

/-- Follows the spec's words: "`fullText` is the ordered concatenation of all
non-empty fragments". -/
def specFullText : List String → String
  | [] => ""
  | f :: fs => if f = "" then specFullText fs else f ++ specFullText fs

/-- Follows the spec's words: the running fragment count after the sequence,
one increment per non-empty fragment. -/
def specFragmentCount : List String → Nat
  | [] => 0
  | f :: fs => if f = "" then specFragmentCount fs else specFragmentCount fs + 1

/-- The fragment text a Claude stream event carries (absent delta text and
empty delta text are both falsy, hence equivalent to the empty fragment). -/
def ClaudeStreamChunk.fragment (c : ClaudeStreamChunk) : String :=
  c.deltaText.getD ""

/-- The fragment text an OpenAI stream event carries. -/
def OpenAIStreamChunk.fragment (c : OpenAIStreamChunk) : String :=
  c.deltaContent.getD ""

/-- Generalized fold characterization for the Claude streaming loop: from any
accumulator state, the loop appends exactly the spec-described contributions. -/
theorem claudeFold_eq_spec (cs : List ClaudeStreamChunk) :
    ∀ acc : StreamAcc,
      cs.foldl claudeStreamStep acc =
        { fullResponse := acc.fullResponse ++ specFullText (cs.map ClaudeStreamChunk.fragment)
          chunkCount := acc.chunkCount + specFragmentCount (cs.map ClaudeStreamChunk.fragment)
          onChunkCalls :=
            acc.onChunkCalls ++ specChunkRecords (cs.map ClaudeStreamChunk.fragment) acc.chunkCount } := by
  induction cs with
  | nil =>
      intro acc
      simp [specFullText, specFragmentCount, specChunkRecords]
  | cons c cs ih =>
      intro acc
      by_cases hf : c.fragment = ""
      · have hstep : claudeStreamStep acc c = acc := by
          unfold ClaudeStreamChunk.fragment at hf
          cases hc : c.deltaText with
          | none => simp [claudeStreamStep, hc]
          | some t =>
              have ht : t = "" := by simpa [hc] using hf
              simp [claudeStreamStep, hc, ht]
        simp only [List.foldl_cons, hstep, ih acc, List.map_cons]
        simp [specFullText, specFragmentCount, specChunkRecords, hf]
      · have hsome : c.deltaText = some c.fragment := by
          unfold ClaudeStreamChunk.fragment at hf ⊢
          cases hc : c.deltaText with
          | none => simp [hc] at hf
          | some t => simp [hc]
        have hstep : claudeStreamStep acc c =
            { fullResponse := acc.fullResponse ++ c.fragment
              chunkCount := acc.chunkCount + 1
              onChunkCalls := acc.onChunkCalls ++ [(c.fragment, acc.chunkCount)] } := by
          simp [claudeStreamStep, hsome, hf]
        simp only [List.foldl_cons, hstep, ih, List.map_cons, StreamAcc.mk.injEq]
        refine ⟨?_, ?_, ?_⟩
        · simp [specFullText, hf, String.append_assoc]
        · simp only [specFragmentCount, if_neg hf]
          omega
        · simp [specChunkRecords, hf]

/-- Generalized fold characterization for the OpenAI streaming loop. -/
theorem openAIFold_eq_spec (cs : List OpenAIStreamChunk) :
    ∀ acc : StreamAcc,
      cs.foldl openAIStreamStep acc =
        { fullResponse := acc.fullResponse ++ specFullText (cs.map OpenAIStreamChunk.fragment)
          chunkCount := acc.chunkCount + specFragmentCount (cs.map OpenAIStreamChunk.fragment)
          onChunkCalls :=
            acc.onChunkCalls ++ specChunkRecords (cs.map OpenAIStreamChunk.fragment) acc.chunkCount } := by
  induction cs with
  | nil =>
      intro acc
      simp [specFullText, specFragmentCount, specChunkRecords]
  | cons c cs ih =>
      intro acc
      by_cases hf : c.fragment = ""
      · have hstep : openAIStreamStep acc c = acc := by
          simp [openAIStreamStep, OpenAIStreamChunk.fragment] at hf ⊢
          simp [hf]
        simp only [List.foldl_cons, hstep, ih acc, List.map_cons]
        simp [specFullText, specFragmentCount, specChunkRecords, hf]
      · have hstep : openAIStreamStep acc c =
            { fullResponse := acc.fullResponse ++ c.fragment
              chunkCount := acc.chunkCount + 1
              onChunkCalls := acc.onChunkCalls ++ [(c.fragment, acc.chunkCount)] } := by
          unfold OpenAIStreamChunk.fragment at hf ⊢
          simp [openAIStreamStep, hf]
        simp only [List.foldl_cons, hstep, ih, List.map_cons, StreamAcc.mk.injEq]
        refine ⟨?_, ?_, ?_⟩
        · simp [specFullText, hf, String.append_assoc]
        · simp only [specFragmentCount, if_neg hf]
          omega
        · simp [specChunkRecords, hf]

/-- Closed form of `sendClaudeRequestCore`. -/
theorem sendClaudeRequestCore_eq_spec (cs : List ClaudeStreamChunk) :
    sendClaudeRequestCore cs =
      { fullResponse := specFullText (cs.map ClaudeStreamChunk.fragment)
        chunkCount := specFragmentCount (cs.map ClaudeStreamChunk.fragment)
        onChunkCalls := specChunkRecords (cs.map ClaudeStreamChunk.fragment) 0 } := by
  have h := claudeFold_eq_spec cs ⟨"", 0, []⟩
  simpa [sendClaudeRequestCore] using h

/-- Closed form of `sendOpenAIRequestCore`. -/
theorem sendOpenAIRequestCore_eq_spec (cs : List OpenAIStreamChunk) :
    sendOpenAIRequestCore cs =
      { fullResponse := specFullText (cs.map OpenAIStreamChunk.fragment)
        chunkCount := specFragmentCount (cs.map OpenAIStreamChunk.fragment)
        onChunkCalls := specChunkRecords (cs.map OpenAIStreamChunk.fragment) 0 } := by
  have h := openAIFold_eq_spec cs ⟨"", 0, []⟩
  simpa [sendOpenAIRequestCore] using h

/-! ## Chunk formatters

`BedrockService.formatStreamChunk(model, text, chunkIndex)` and
`createCompletionChunk(model, chunkCount)` take no state or progress-message
parameter and hardcode `ChatState.RESPONDING` / `ChatState.COMPLETE`.
`OpenAIService.formatStreamChunk(model, text, chunkIndex, stateOverride?,
progressMessage?)` and `createCompletionChunk(model, chunkCount,
stateOverride?, progressMessage?)` use `stateOverride || default` and attach
`progressMessage` when truthy.  The ISO timestamp `new Date().toISOString()`
is modelled by the abstract clock value `now`. -/

/-- The JSON body of one stream-output item (`{model, text, chunkIndex,
timestamp, state, progressMessage?}`); `progressMessage = none` models an
absent field. -/
structure ChunkJson where
  model : String
  text : String
  chunkIndex : Nat
  timestamp : Nat
  state : ChatState
  progressMessage : Option String
deriving DecidableEq, Repr

/-- JS `stateOverride || default`: `none` models both `undefined` and the
empty-string "Default (Auto)" option value, which are falsy. -/
def jsStateOr (o : Option ChatState) (d : ChatState) : ChatState := o.getD d

/-- `BedrockService.formatStreamChunk`: state is always `RESPONDING`; the
signature has no state or progress-message parameter. -/
def formatStreamChunkBedrock (model text : String) (chunkIndex : Nat) (now : Nat) : ChunkJson :=
  { model := model, text := text, chunkIndex := chunkIndex, timestamp := now
    state := ChatState.responding, progressMessage := none }

/-- `BedrockService.createCompletionChunk`: text `" "`, state always
`COMPLETE`; no state or progress-message parameter. -/
def createCompletionChunkBedrock (model : String) (chunkCount : Nat) (now : Nat) : ChunkJson :=
  { model := model, text := " ", chunkIndex := chunkCount, timestamp := now
    state := ChatState.complete, progressMessage := none }

/-- `OpenAIService.formatStreamChunk`: `state: stateOverride ||
ChatState.RESPONDING`, and `progressMessage` attached only when truthy. -/
def formatStreamChunkOpenAI (model text : String) (chunkIndex : Nat) (now : Nat)
    (stateOverride : Option ChatState) (progressMessage : Option String) : ChunkJson :=
  { model := model, text := text, chunkIndex := chunkIndex, timestamp := now
    state := jsStateOr stateOverride ChatState.responding
    progressMessage :=
      match progressMessage with
      | some p => if p = "" then none else some p
      | none => none }

/-- `OpenAIService.createCompletionChunk`: text `" "`, `chunkIndex:
chunkCount`, `state: stateOverride || ChatState.COMPLETE`. -/
def createCompletionChunkOpenAI (model : String) (chunkCount : Nat) (now : Nat)
    (stateOverride : Option ChatState) (progressMessage : Option String) : ChunkJson :=
  { model := model, text := " ", chunkIndex := chunkCount, timestamp := now
    state := jsStateOr stateOverride ChatState.complete
    progressMessage :=
      match progressMessage with
      | some p => if p = "" then none else some p
      | none => none }

/-! ## Message preparation and result objects -/

/-- `BedrockService.processUserMessage` on a string input (the node always
passes the `message` parameter cast to string).  `parse` is the oracle for
`JSON.parse(userMessage)`: `.ok v` when the string parses to `v`.  When the
parsed object has truthy `role` and `content`, it is used as the message;
otherwise the string becomes a plain user message with `content: [{text}]`. -/
def processUserMessageClaude (userMessage : String) (parse : Except Unit Json) : List Json :=
  let plain : List Json :=
    [Json.obj [("role", Json.str "user"),
               ("content", Json.arr [Json.obj [("text", Json.str userMessage)]])]]
  match parse with
  | .ok messageObj =>
      if jsTruthy (messageObj.getField "role") && jsTruthy (messageObj.getField "content") then
        [messageObj]
      else plain
  | .error _ => plain

/-- `OpenAIService.processUserMessage` on a string input: same structure, but
a plain message carries `content: userMessage` directly. -/
def processUserMessageOpenAI (userMessage : String) (parse : Except Unit Json) : List Json :=
  let plain : List Json :=
    [Json.obj [("role", Json.str "user"), ("content", Json.str userMessage)]]
  match parse with
  | .ok messageObj =>
      if jsTruthy (messageObj.getField "role") && jsTruthy (messageObj.getField "content") then
        [messageObj]
      else plain
  | .error _ => plain

/-- The object built by `createFinalResponseObject` (both services share this
shape; only the assistant-message layout in `updatedMessages` differs). -/
structure FinalResponse where
  model : String
  response : String
  chunkCount : Nat
  messages : List Json
  updatedMessages : List Json
  metaTimestamp : Nat
  metaModel : String
  temperature : Rat
  maxTokens : Int
  totalCharacters : Nat
deriving Repr

/-- `BedrockService.createFinalResponseObject`: appends an assistant message
with `content: [{text: fullResponse}]`. -/
def createFinalResponseObjectClaude (model fullResponse : String) (chunkCount : Nat)
    (messages : List Json) (temperature : Rat) (maxTokens : Int) (now : Nat) : FinalResponse :=
  { model := model, response := fullResponse, chunkCount := chunkCount
    messages := messages
    updatedMessages := messages ++
      [Json.obj [("role", Json.str "assistant"),
                 ("content", Json.arr [Json.obj [("text", Json.str fullResponse)]])]]
    metaTimestamp := now, metaModel := model
    temperature := temperature, maxTokens := maxTokens
    totalCharacters := fullResponse.length }

/-- `OpenAIService.createFinalResponseObject`: appends an assistant message
with `content: fullResponse`. -/
def createFinalResponseObjectOpenAI (model fullResponse : String) (chunkCount : Nat)
    (messages : List Json) (temperature : Rat) (maxTokens : Int) (now : Nat) : FinalResponse :=
  { model := model, response := fullResponse, chunkCount := chunkCount
    messages := messages
    updatedMessages := messages ++
      [Json.obj [("role", Json.str "assistant"), ("content", Json.str fullResponse)]]
    metaTimestamp := now, metaModel := model
    temperature := temperature, maxTokens := maxTokens
    totalCharacters := fullResponse.length }

/-- The object built by `BedrockService.formatMcpOutput` (`model` with the
version suffix after the first `:` removed, `source: 'claude'`, `done: true`,
and `providerId: 'mcp'` unless disabled). -/
structure McpOutput where
  content : String
  model : String
  metaTimestamp : Nat
  temperature : Rat
  maxTokens : Int
  providerId : Option String
deriving Repr

/-- `BedrockService.formatMcpOutput` (its `useMcpProvider` parameter defaults
to `true`, and the GravityClaude node calls it without that argument). -/
def formatMcpOutput (fullResponse model : String) (temperature : Rat) (maxTokens : Int)
    (now : Nat) (useMcpProvider : Bool := true) : McpOutput :=
  { content := fullResponse
    model := (model.splitOn ":").headD ""
    metaTimestamp := now
    temperature := temperature, maxTokens := maxTokens
    providerId := if useMcpProvider then some "mcp" else none }

/-- The JSON body built by `formatErrorResponse` (both services):
`{error: true, message: error?.message || 'Unknown error', stack, timestamp}`.
Errors raised by the provider stream are modelled as bare messages, so the
`stack` field is the empty string. -/
structure ErrJson where
  message : String
  stack : String
  timestamp : Nat
deriving DecidableEq, Repr

/-- `formatErrorResponse` applied to an error with message `msg`. -/
def formatErrorResponseJs (msg : String) (now : Nat) : ErrJson :=
  { message := jsOr msg "Unknown error", stack := "", timestamp := now }

/-- The JSON body of one n8n output item of the streaming nodes. -/
inductive NodeJson where
  | chunk (c : ChunkJson)
  | finalResp (r : FinalResponse)
  | mcp (m : McpOutput)
  | errorResp (e : ErrJson)
deriving Repr

/-- Whether an output item is a stream-chunk record. -/
def NodeJson.isChunk : NodeJson → Bool
  | .chunk _ => true
  | _ => false

/-! ## GravityClaude and GravityOpenAI `execute`

Both methods read node parameters and credentials, run the streaming request
with a callback that pushes formatted chunks onto a local `streamOutput`
array, append a completion chunk, and return the output arrays; the catch
branch replaces every output with the formatted error response (the local
`streamOutput` is not returned on that path).

GravityClaude passes `advancedOptions.state` / `advancedOptions.progressMessage`
as extra arguments to `BedrockService.formatStreamChunk` /
`createCompletionChunk`; those functions declare no such parameters, so under
JS call semantics the extra arguments are dropped, which is how the embedding
renders the calls.  Tool extraction and the Bedrock request configuration
only feed the external client and do not influence the node's outputs. -/

/-- The advanced options collection of the GravityClaude node; `state = none`
models both an absent collection entry and the falsy "Default (Auto)" value. -/
structure ClaudeAdvancedOptions where
  state : Option ChatState
  progressMessage : Option String
deriving Repr

/-- Environment of one `GravityClaude.execute` invocation: node parameters,
the `JSON.parse` oracle for the message parameter, the provider stream, and
the abstract clock. -/
structure ClaudeExecEnv where
  model : String
  systemPrompt : String
  temperature : Rat
  maxTokens : Int
  userMessage : String
  userMessageParse : Except Unit Json
  advancedOptions : ClaudeAdvancedOptions
  stream : ClaudeStream
  now : Nat
deriving Repr

/-- `GravityClaude.execute`: returns `[streamOutput, finalOutput, mcpOutput]`
on success and `[[errorResponse], [errorResponse], [errorResponse]]` when the
request throws. -/
def executeGravityClaude (env : ClaudeExecEnv) : List (List NodeJson) :=
  let messages := processUserMessageClaude env.userMessage env.userMessageParse
  let run := sendClaudeRequestRun env.stream
  let streamOutput : List NodeJson :=
    run.1.onChunkCalls.map (fun call =>
      NodeJson.chunk (formatStreamChunkBedrock env.model call.1 call.2 env.now))
  match run.2 with
  | .ok result =>
      let fullResponse := result.1
      let chunkCount := result.2
      [streamOutput ++ [NodeJson.chunk (createCompletionChunkBedrock env.model chunkCount env.now)],
       [NodeJson.finalResp (createFinalResponseObjectClaude env.model fullResponse chunkCount
          messages env.temperature env.maxTokens env.now)],
       [NodeJson.mcp (formatMcpOutput fullResponse env.model env.temperature env.maxTokens env.now)]]
  | .error msg =>
      let errorResponse := NodeJson.errorResp (formatErrorResponseJs msg env.now)
      [[errorResponse], [errorResponse], [errorResponse]]

/-- Environment of one `GravityOpenAI.execute` invocation.  `items` models
the node's main-input item list; the method never calls `getInputData`, so
the field is unread. -/
structure OpenAIExecEnv where
  items : List Json
  model : String
  systemPrompt : String
  temperature : Rat
  maxTokens : Int
  userMessage : String
  userMessageParse : Except Unit Json
  baseURL : String
  apiKey : String
  organizationId : Option String
  stream : OpenAIStream
  now : Nat
deriving Repr

/-- `GravityOpenAI.execute`: returns `[streamOutput, finalOutput]` on success
and `[[errorResponse], [errorResponse]]` when the request throws.  The node
exposes no state override, so `formatStreamChunk` / `createCompletionChunk`
are called without override arguments. -/
def executeGravityOpenAI (env : OpenAIExecEnv) : List (List NodeJson) :=
  let messages := processUserMessageOpenAI env.userMessage env.userMessageParse
  let run := sendOpenAIRequestRun env.stream
  let streamOutput : List NodeJson :=
    run.1.onChunkCalls.map (fun call =>
      NodeJson.chunk (formatStreamChunkOpenAI env.model call.1 call.2 env.now none none))
  match run.2 with
  | .ok result =>
      let fullResponse := result.1
      let chunkCount := result.2
      [streamOutput ++
         [NodeJson.chunk (createCompletionChunkOpenAI env.model chunkCount env.now none none)],
       [NodeJson.finalResp (createFinalResponseObjectOpenAI env.model fullResponse chunkCount
          messages env.temperature env.maxTokens env.now)]]
  | .error msg =>
      let errorResponse := NodeJson.errorResp (formatErrorResponseJs msg env.now)
      [[errorResponse], [errorResponse]]

/-! ## Envelope builder and publishing nodes

`GravityOutput.execute` and `GravityUpdate.execute` construct a base event
`{id: Date.now() + '-' + randomSuffix, chatId, conversationId, userId,
providerId, timestamp, state}` per item and hand type-specific messages to
`publisher.publishEvent(AI_RESULT_CHANNEL, message)`.  Publishing is modelled
as an append-only log of `(channel, message)` pairs. -/

/-- The base event record shared by every outbound message. -/
structure BaseEvent where
  id : String
  chatId : String
  conversationId : String
  userId : String
  providerId : String
  timestamp : Nat
  state : ChatState
deriving Repr

/-- The generated envelope ID: `Date.now() + '-' + random suffix`. -/
def mkEventId (now : Nat) (rand : String) : String :=
  toString now ++ "-" ++ rand

/-- The provider ID `n8n:workflowId:nodeId`, with `|| "unknown"` fallbacks
for a missing or empty workflow/node ID. -/
def mkProviderId (workflowId nodeId : Option String) : String :=
  "n8n:" ++ jsOr (workflowId.getD "") "unknown" ++ ":" ++ jsOr (nodeId.getD "") "unknown"

/-- Voice configuration attached to a text message when audio is enabled. -/
structure VoiceConfig where
  enabled : Bool
  textField : String
deriving DecidableEq, Repr

/-- Outbound messages.  The constructors model the external
`@gravityai-dev/gravity-server` creation functions (`createText`,
`createJsonData`, `createImageResponse`, `createToolOutput`,
`createActionSuggestion`, `createProgressUpdate`, `createMessageChunk`,
`createMetadata`) as inert pairings of the base event with the payload the
node passes, following the spec's variant table. -/
inductive GravityMessage where
  | text (base : BaseEvent) (content : String) (voiceConfig : Option VoiceConfig)
  | jsonData (base : BaseEvent) (dataType : String) (items : List Json)
  | imageResponse (base : BaseEvent) (url alt : String)
  | toolOutput (base : BaseEvent) (tool : String) (result : Json)
  | actionSuggestion (base : BaseEvent) (actionType : String) (payload : Json)
  | progressUpdate (base : BaseEvent) (message : String)
  | messageChunk (base : BaseEvent) (text : String)
  | metadata (base : BaseEvent) (key value : String)
deriving Repr

/-- The base event a message carries. -/
def GravityMessage.base : GravityMessage → BaseEvent
  | .text b _ _ => b
  | .jsonData b _ _ => b
  | .imageResponse b _ _ => b
  | .toolOutput b _ _ => b
  | .actionSuggestion b _ _ => b
  | .progressUpdate b _ => b
  | .messageChunk b _ => b
  | .metadata b _ _ => b

/-- The `items` array of a jsonData message (`none` for other variants). -/
def GravityMessage.jsonItems : GravityMessage → Option (List Json)
  | .jsonData _ _ items => some items
  | _ => none

/-- The publish channel used by both nodes (`AI_RESULT_CHANNEL`, a constant
owned by the external gravity-server library; its value is opaque here). -/
def AI_RESULT_CHANNEL : String := "AI_RESULT_CHANNEL"

/-- One `publisher.publishEvent(channel, message)` call. -/
def Published := String × GravityMessage

/-- A thrown `NodeOperationError`, reduced to its message. -/
structure NodeErr where
  message : String
deriving DecidableEq, Repr

/-- The wrapping rule of the jsonData paths:
`Array.isArray(parsedData) ? parsedData : [parsedData]`. -/
def jsWrapArray (v : Json) : List Json :=
  match v with
  | .arr l => l
  | _ => [v]

/-! ## GravityOutput -/

/-- Per-item inputs of `GravityOutput.execute`: the incoming item's JSON and
the node parameters as evaluated for that item index.  `jsonParse` is the
oracle for `JSON.parse` applied to the `jsonData` string parameter (which
feeds the jsonData, toolOutput and actionSuggestion paths alike). -/
structure OutputItemParams where
  itemJson : Json
  chatId : String
  conversationId : String
  userId : String
  outputType : MessageType
  advancedOptions : Bool
  state : ChatState
  textContent : String
  enableAudio : Bool
  jsonParse : Except Unit Json
  jsonDataFieldName : String
  imageUrl : String
  imageAlt : String
  toolName : String
  actionType : String
  errHandling : String
deriving Repr

/-- One entry of GravityOutput's `returnData`. -/
inductive OutputReturnItem where
  | success (itemJson : Json) (outputType : MessageType) (state : ChatState)
      (timestamp : Nat) (conversationId chatId userId : String)
  | failure (itemJson : Json) (error : String)
deriving Repr

/-- Environment of one `GravityOutput.execute` invocation. -/
structure OutputEnv where
  serverUrl : String
  apiKey : String
  workflowId : Option String
  nodeId : Option String
  now : Nat
  rand : String
  items : List OutputItemParams
deriving Repr

/-- The `try` body of GravityOutput's per-item loop: validation
(`"Required IDs missing"` when chatId, conversationId or userId is empty,
raised before the base event is constructed), base-event construction, and
the output-type switch.  On success it yields the published messages and the
item's result record; on error nothing has been published for the item. -/
def processOutputItem (providerId : String) (now : Nat) (rand : String)
    (p : OutputItemParams) : Except NodeErr (List Published × OutputReturnItem) :=
  if p.conversationId = "" || p.chatId = "" || p.userId = "" then
    .error ⟨"Required IDs missing"⟩
  else
    let messageState := if p.advancedOptions then p.state else ChatState.active
    let baseEvent : BaseEvent :=
      { id := mkEventId now rand, chatId := p.chatId, conversationId := p.conversationId
        userId := p.userId, providerId := providerId, timestamp := now, state := messageState }
    let successRec : OutputReturnItem :=
      .success p.itemJson p.outputType messageState now p.conversationId p.chatId p.userId
    match p.outputType with
    | .TEXT =>
        let message := GravityMessage.text baseEvent p.textContent
          (if p.enableAudio then some ⟨true, "text"⟩ else none)
        .ok ([(AI_RESULT_CHANNEL, message)], successRec)
    | .JSON_DATA =>
        match p.jsonParse with
        | .ok parsedData =>
            let message := GravityMessage.jsonData baseEvent p.jsonDataFieldName
              (jsWrapArray parsedData)
            .ok ([(AI_RESULT_CHANNEL, message)], successRec)
        | .error _ => .error ⟨"Invalid JSON data"⟩
    | .IMAGE_RESPONSE =>
        let message := GravityMessage.imageResponse baseEvent p.imageUrl p.imageAlt
        .ok ([(AI_RESULT_CHANNEL, message)], successRec)
    | .TOOL_OUTPUT =>
        match p.jsonParse with
        | .ok result =>
            let message := GravityMessage.toolOutput baseEvent p.toolName result
            .ok ([(AI_RESULT_CHANNEL, message)], successRec)
        | .error _ => .error ⟨"Invalid JSON data for tool output"⟩
    | .ACTION_SUGGESTION =>
        match p.jsonParse with
        | .ok payload =>
            let message := GravityMessage.actionSuggestion baseEvent p.actionType payload
            .ok ([(AI_RESULT_CHANNEL, message)], successRec)
        | .error _ => .error ⟨"Invalid JSON data for action payload"⟩
    | other => .error ⟨"Unsupported output type: " ++ other.value⟩

/-- GravityOutput's item loop with its catch: on an item error the effective
strategy is `advancedOptions ? errorHandling : "throw"`; `"continue"` records
the failure and proceeds, anything else rethrows (ending execution while
keeping what was already published). -/
def outputLoop (providerId : String) (now : Nat) (rand : String) :
    List OutputItemParams → List Published → List OutputReturnItem →
    List Published × Except NodeErr (List OutputReturnItem)
  | [], pub, ret => (pub, .ok ret)
  | p :: ps, pub, ret =>
      match processOutputItem providerId now rand p with
      | .ok (newPubs, rec) => outputLoop providerId now rand ps (pub ++ newPubs) (ret ++ [rec])
      | .error e =>
          let strategy := if p.advancedOptions then p.errHandling else "throw"
          if strategy = "continue" then
            outputLoop providerId now rand ps pub
              (ret ++ [.failure p.itemJson (jsOr e.message "Unknown error in Gravity Output")])
          else (pub, .error e)

/-- `GravityOutput.execute`: the published log and the overall outcome. -/
def executeGravityOutput (env : OutputEnv) :
    List Published × Except NodeErr (List OutputReturnItem) :=
  outputLoop (mkProviderId env.workflowId env.nodeId) env.now env.rand env.items [] []

/-! ## GravityUpdate -/

/-- Per-item inputs of `GravityUpdate.execute`. -/
structure UpdateItemParams where
  chatId : String
  conversationId : String
  userId : String
  updateType : MessageType
  advancedOptions : Bool
  state : ChatState
  message : String
  text : String
  jsonParse : Except Unit Json
  jsonDataFieldName : String
  metadataKey : String
  metadataValue : String
deriving Repr

/-- One entry of GravityUpdate's `returnData`. -/
inductive UpdateReturnItem where
  | progressRes (timestamp : Nat) (message : String)
  | chunkRes (timestamp : Nat) (textPreview : String)
  | jsonRes (timestamp : Nat) (dataType : String) (itemCount : Nat)
  | metadataRes (timestamp : Nat) (key value : String)
  | failure (error : String)
deriving Repr

/-- Environment of one `GravityUpdate.execute` invocation. -/
structure UpdateEnv where
  serverUrl : String
  apiKey : String
  workflowId : Option String
  nodeId : Option String
  now : Nat
  rand : String
  continueOnFail : Bool
  items : List UpdateItemParams
deriving Repr

/-- The `try` body of GravityUpdate's per-item loop.  Unlike GravityOutput it
performs no validation of chatId/conversationId/userId: the base event is
constructed directly from the parameters as given. -/
def processUpdateItem (providerId : String) (now : Nat) (rand : String)
    (p : UpdateItemParams) : Except NodeErr (List Published × UpdateReturnItem) :=
  let state := if p.advancedOptions then p.state else ChatState.active
  let baseEvent : BaseEvent :=
    { id := mkEventId now rand, chatId := p.chatId, conversationId := p.conversationId
      userId := p.userId, providerId := providerId, timestamp := now, state := state }
  match p.updateType with
  | .PROGRESS_UPDATE =>
      .ok ([(AI_RESULT_CHANNEL, GravityMessage.progressUpdate baseEvent p.message)],
        .progressRes now p.message)
  | .MESSAGE_CHUNK =>
      .ok ([(AI_RESULT_CHANNEL, GravityMessage.messageChunk baseEvent p.text)],
        .chunkRes now (if p.text.length > 30 then p.text.take 30 ++ "..." else p.text))
  | .JSON_DATA =>
      match p.jsonParse with
      | .ok parsedData =>
          let dataArray := jsWrapArray parsedData
          .ok ([(AI_RESULT_CHANNEL,
                  GravityMessage.jsonData baseEvent p.jsonDataFieldName dataArray)],
            .jsonRes now p.jsonDataFieldName dataArray.length)
      | .error _ => .error ⟨"Invalid JSON data"⟩
  | .METADATA =>
      .ok ([(AI_RESULT_CHANNEL,
              GravityMessage.metadata baseEvent p.metadataKey p.metadataValue)],
        .metadataRes now p.metadataKey p.metadataValue)
  | other => .error ⟨"Unsupported update type: " ++ other.value⟩

/-- GravityUpdate's item loop with its catch: `continueOnFail()` records the
failure and proceeds, otherwise the error is rethrown. -/
def updateLoop (providerId : String) (now : Nat) (rand : String) (continueOnFail : Bool) :
    List UpdateItemParams → List Published → List UpdateReturnItem →
    List Published × Except NodeErr (List UpdateReturnItem)
  | [], pub, ret => (pub, .ok ret)
  | p :: ps, pub, ret =>
      match processUpdateItem providerId now rand p with
      | .ok (newPubs, rec) =>
          updateLoop providerId now rand continueOnFail ps (pub ++ newPubs) (ret ++ [rec])
      | .error e =>
          if continueOnFail then
            updateLoop providerId now rand continueOnFail ps pub (ret ++ [.failure e.message])
          else (pub, .error e)

/-- `GravityUpdate.execute`: the published log and the overall outcome. -/
def executeGravityUpdate (env : UpdateEnv) :
    List Published × Except NodeErr (List UpdateReturnItem) :=
  updateLoop (mkProviderId env.workflowId env.nodeId) env.now env.rand env.continueOnFail
    env.items [] []

/-! ## Helper lemmas -/

/-- The generated envelope ID is never empty (it contains the separator). -/
theorem mkEventId_ne_empty (now : Nat) (rand : String) : mkEventId now rand ≠ "" := by
  intro h
  have hlen := congrArg String.length h
  simp [mkEventId, String.length_append] at hlen
  exact absurd hlen.1.2 (by decide)

/-- Every message a successful GravityOutput item publishes carries the
generated ID and the validated (hence non-empty) correlation IDs. -/
theorem processOutputItem_pub_base (prov : String) (now : Nat) (rand : String)
    (p : OutputItemParams) (pubs : List Published) (rec : OutputReturnItem)
    (h : processOutputItem prov now rand p = .ok (pubs, rec)) :
    ∀ pm ∈ pubs, pm.2.base.id = mkEventId now rand ∧
      pm.2.base.chatId ≠ "" ∧ pm.2.base.conversationId ≠ "" ∧ pm.2.base.userId ≠ "" := by
  intro pm hm
  unfold processOutputItem at h
  split at h
  · cases h
  next hv =>
    have hconv : ¬ p.conversationId = "" := by
      intro hx; exact hv (by simp [hx])
    have hchat : ¬ p.chatId = "" := by
      intro hx; exact hv (by simp [hx])
    have huser : ¬ p.userId = "" := by
      intro hx; exact hv (by simp [hx])
    dsimp only at h
    split at h <;>
      try split at h
    all_goals
      first
      | exact Except.noConfusion h
      | (cases h
         rcases List.mem_singleton.mp hm with rfl
         exact ⟨rfl, hchat, hconv, huser⟩)

/-- Invariant propagation through GravityOutput's item loop: any property
that holds of the incoming log and of every message a successful item
publishes holds of the final log. -/
theorem outputLoop_pub_invariant (prov : String) (now : Nat) (rand : String)
    (P : Published → Prop)
    (hstep : ∀ p pubs rec, processOutputItem prov now rand p = .ok (pubs, rec) →
      ∀ pm ∈ pubs, P pm) :
    ∀ (items : List OutputItemParams) (pub : List Published) (ret : List OutputReturnItem),
      (∀ pm ∈ pub, P pm) → ∀ pm ∈ (outputLoop prov now rand items pub ret).1, P pm := by
  intro items
  induction items with
  | nil =>
      intro pub ret hpub pm hm
      exact hpub pm hm
  | cons p ps ih =>
      intro pub ret hpub pm hm
      unfold outputLoop at hm
      cases hproc : processOutputItem prov now rand p with
      | ok res =>
          obtain ⟨newPubs, rec⟩ := res
          rw [hproc] at hm
          dsimp only at hm
          refine ih (pub ++ newPubs) (ret ++ [rec]) ?_ pm hm
          intro q hq
          rcases List.mem_append.mp hq with hq | hq
          · exact hpub q hq
          · exact hstep p newPubs rec hproc q hq
      | error e =>
          rw [hproc] at hm
          dsimp only at hm
          by_cases hs : (if p.advancedOptions = true then p.errHandling else "throw") = "continue"
          · rw [if_pos hs] at hm
            exact ih pub _ hpub pm hm
          · rw [if_neg hs] at hm
            exact hpub pm hm

/-- Every message a successful GravityUpdate item publishes carries the
generated ID (but its correlation IDs are whatever the parameters held). -/
theorem processUpdateItem_pub_id (prov : String) (now : Nat) (rand : String)
    (p : UpdateItemParams) (pubs : List Published) (rec : UpdateReturnItem)
    (h : processUpdateItem prov now rand p = .ok (pubs, rec)) :
    ∀ pm ∈ pubs, pm.2.base.id = mkEventId now rand := by
  intro pm hm
  unfold processUpdateItem at h
  dsimp only at h
  split at h <;>
    try split at h
  all_goals
    first
    | exact Except.noConfusion h
    | (cases h
       rcases List.mem_singleton.mp hm with rfl
       exact rfl)

/-- Invariant propagation through GravityUpdate's item loop. -/
theorem updateLoop_pub_invariant (prov : String) (now : Nat) (rand : String)
    (cof : Bool) (P : Published → Prop)
    (hstep : ∀ p pubs rec, processUpdateItem prov now rand p = .ok (pubs, rec) →
      ∀ pm ∈ pubs, P pm) :
    ∀ (items : List UpdateItemParams) (pub : List Published) (ret : List UpdateReturnItem),
      (∀ pm ∈ pub, P pm) → ∀ pm ∈ (updateLoop prov now rand cof items pub ret).1, P pm := by
  intro items
  induction items with
  | nil =>
      intro pub ret hpub pm hm
      exact hpub pm hm
  | cons p ps ih =>
      intro pub ret hpub pm hm
      unfold updateLoop at hm
      cases hproc : processUpdateItem prov now rand p with
      | ok res =>
          obtain ⟨newPubs, rec⟩ := res
          rw [hproc] at hm
          dsimp only at hm
          refine ih (pub ++ newPubs) (ret ++ [rec]) ?_ pm hm
          intro q hq
          rcases List.mem_append.mp hq with hq | hq
          · exact hpub q hq
          · exact hstep p newPubs rec hproc q hq
      | error e =>
          rw [hproc] at hm
          dsimp only at hm
          by_cases hs : cof = true
          · rw [if_pos hs] at hm
            exact ih pub _ hpub pm hm
          · rw [if_neg hs] at hm
            exact hpub pm hm

/-! ## Claim theorems -/

/-- Concrete GravityClaude invocation for claim C1: the "Message State"
advanced option is set to `thinking` and the stream delivers one fragment. -/
def envClaudeOverride : ClaudeExecEnv :=
  { model := "m", systemPrompt := "s", temperature := 1, maxTokens := 10
    userMessage := "hi", userMessageParse := .error ()
    advancedOptions := { state := some ChatState.thinking, progressMessage := none }
    stream := { chunks := [{ deltaText := some "A" }], failure := none }, now := 5 }

/-- Claim C1: the claim says a non-empty state override makes every chunk
envelope (including the completion envelope) of the Claude and OpenAI
adapters carry the overridden state.  Evaluating `GravityClaude.execute`
with the override set to `thinking` shows the chunks still carry
`responding`/`complete`: the node passes `advancedOptions.state` to
`BedrockService.formatStreamChunk`/`createCompletionChunk`, but those
functions declare no state parameter and hardcode the defaults, so the
override is dropped (contradicting the node's own option description
"Override the message state for all chunks").  The third conjunct shows the
OpenAI-side formatter does honor the same override, confirming the intent. -/
theorem claude_state_override_dropped_eval :
    envClaudeOverride.advancedOptions.state = some ChatState.thinking ∧
    (executeGravityClaude envClaudeOverride).headD [] =
      [NodeJson.chunk { model := "m", text := "A", chunkIndex := 0, timestamp := 5
                        state := ChatState.responding, progressMessage := none },
       NodeJson.chunk { model := "m", text := " ", chunkIndex := 1, timestamp := 5
                        state := ChatState.complete, progressMessage := none }] ∧
    formatStreamChunkOpenAI "m" "A" 0 5 (some ChatState.thinking) none =
      { model := "m", text := "A", chunkIndex := 0, timestamp := 5
        state := ChatState.thinking, progressMessage := none } :=
  ⟨rfl, rfl, rfl⟩

/-- Concrete GravityUpdate invocation for claim C2: a progress update with an
empty `chatId` parameter. -/
def envUpdateEmptyChat : UpdateEnv :=
  { serverUrl := "u", apiKey := "k", workflowId := some "w", nodeId := some "n"
    now := 1700, rand := "r", continueOnFail := false
    items := [{ chatId := "", conversationId := "conv", userId := "user"
                updateType := .PROGRESS_UPDATE, advancedOptions := false
                state := ChatState.active, message := "hello", text := ""
                jsonParse := .error (), jsonDataFieldName := "calls"
                metadataKey := "", metadataValue := "" }] }

/-- Claim C2, counterexample: GravityUpdate performs no validation of
chatId/conversationId/userId, so with an empty chatId it constructs and
publishes an envelope whose `chatId` is the empty string — refuting the
claim that every constructed base event carries non-empty identifiers. -/
theorem gravityUpdate_publishes_empty_chatId :
    (executeGravityUpdate envUpdateEmptyChat).1.map (fun pm => pm.2.base.chatId) = [""] :=
  rfl

/-- Claim C2, amended: every envelope GravityOutput publishes carries a
non-empty id, chatId, conversationId and userId (the validation rejects
empty correlation IDs before the base event is built, and the generated id
always contains the separator); every envelope GravityUpdate publishes
carries a non-empty generated id, but its chatId/conversationId/userId are
taken from the parameters without validation and may be empty. -/
theorem envelope_id_fields :
    (∀ (env : OutputEnv), ∀ pm ∈ (executeGravityOutput env).1,
       pm.2.base.id ≠ "" ∧ pm.2.base.chatId ≠ "" ∧
       pm.2.base.conversationId ≠ "" ∧ pm.2.base.userId ≠ "") ∧
    (∀ (env : UpdateEnv), ∀ pm ∈ (executeGravityUpdate env).1, pm.2.base.id ≠ "") := by
  constructor
  · intro env pm hm
    have hinv := outputLoop_pub_invariant (mkProviderId env.workflowId env.nodeId)
      env.now env.rand
      (fun q => q.2.base.id = mkEventId env.now env.rand ∧ q.2.base.chatId ≠ "" ∧
        q.2.base.conversationId ≠ "" ∧ q.2.base.userId ≠ "")
      (fun p pubs rec h => processOutputItem_pub_base _ _ _ p pubs rec h)
      env.items [] [] (fun q hq => absurd hq (List.not_mem_nil q)) pm hm
    obtain ⟨hid, h2, h3, h4⟩ := hinv
    refine ⟨?_, h2, h3, h4⟩
    rw [hid]
    exact mkEventId_ne_empty env.now env.rand
  · intro env pm hm
    have hinv := updateLoop_pub_invariant (mkProviderId env.workflowId env.nodeId)
      env.now env.rand env.continueOnFail
      (fun q => q.2.base.id = mkEventId env.now env.rand)
      (fun p pubs rec h => processUpdateItem_pub_id _ _ _ p pubs rec h)
      env.items [] [] (fun q hq => absurd hq (List.not_mem_nil q)) pm hm
    rw [hinv]
    exact mkEventId_ne_empty env.now env.rand

/-- Concrete GravityOutput invocation publishing one text envelope (for the
claim C2 witness). -/
def envOutputTextW : OutputEnv :=
  { serverUrl := "u", apiKey := "k", workflowId := some "w", nodeId := some "n"
    now := 3, rand := "r"
    items := [{ itemJson := Json.null, chatId := "c", conversationId := "v", userId := "s"
                outputType := .TEXT, advancedOptions := false, state := ChatState.active
                textContent := "hi", enableAudio := false, jsonParse := .error ()
                jsonDataFieldName := "data", imageUrl := "", imageAlt := ""
                toolName := "", actionType := "", errHandling := "throw" }] }

/-- The envelope `envOutputTextW` publishes. -/
def pmOutputTextW : Published :=
  (AI_RESULT_CHANNEL,
    GravityMessage.text
      { id := mkEventId 3 "r", chatId := "c", conversationId := "v", userId := "s"
        providerId := mkProviderId (some "w") (some "n"), timestamp := 3
        state := ChatState.active }
      "hi" none)

/-- Concrete GravityUpdate invocation publishing one progress envelope (for
the claim C2 witness). -/
def envUpdateProgressW : UpdateEnv :=
  { serverUrl := "u", apiKey := "k", workflowId := some "w", nodeId := some "n"
    now := 3, rand := "r", continueOnFail := false
    items := [{ chatId := "c", conversationId := "v", userId := "s"
                updateType := .PROGRESS_UPDATE, advancedOptions := false
                state := ChatState.active, message := "go", text := ""
                jsonParse := .error (), jsonDataFieldName := "calls"
                metadataKey := "", metadataValue := "" }] }

/-- The envelope `envUpdateProgressW` publishes. -/
def pmUpdateProgressW : Published :=
  (AI_RESULT_CHANNEL,
    GravityMessage.progressUpdate
      { id := mkEventId 3 "r", chatId := "c", conversationId := "v", userId := "s"
        providerId := mkProviderId (some "w") (some "n"), timestamp := 3
        state := ChatState.active }
      "go")

/-- Witness for `envelope_id_fields` at concrete invocations. -/
theorem envelope_id_fields_witness :
    (pmOutputTextW.2.base.id ≠ "" ∧ pmOutputTextW.2.base.chatId ≠ "" ∧
     pmOutputTextW.2.base.conversationId ≠ "" ∧ pmOutputTextW.2.base.userId ≠ "") ∧
    pmUpdateProgressW.2.base.id ≠ "" := by
  constructor
  · have hm : pmOutputTextW ∈ (executeGravityOutput envOutputTextW).1 := by
      show pmOutputTextW ∈ [pmOutputTextW]
      exact List.mem_singleton.mpr rfl
    exact envelope_id_fields.1 envOutputTextW pmOutputTextW hm
  · have hm : pmUpdateProgressW ∈ (executeGravityUpdate envUpdateProgressW).1 := by
      show pmUpdateProgressW ∈ [pmUpdateProgressW]
      exact List.mem_singleton.mpr rfl
    exact envelope_id_fields.2 envUpdateProgressW pmUpdateProgressW hm

/-- Concrete GravityOpenAI invocation for claim C3: one fragment is
delivered, then the stream fails with message "boom". -/
def envOpenAIFail : OpenAIExecEnv :=
  { items := [], model := "gpt-4o", systemPrompt := "s", temperature := 1, maxTokens := 100
    userMessage := "hi", userMessageParse := .error (), baseURL := "", apiKey := "k"
    organizationId := none
    stream := { chunks := [{ deltaContent := some "A" }], failure := some "boom" }, now := 9 }

/-- Claim C3, counterexample: the fragment "A" did produce a chunk callback
before the failure (first conjunct), yet `GravityOpenAI.execute` returns
only the formatted error response on both outputs (second conjunct) — the
catch branch discards the local `streamOutput`, so no chunk envelope
produced before the failure is returned (third conjunct). -/
theorem midstream_failure_partial_discarded_eval :
    (sendOpenAIRequestRun envOpenAIFail.stream).1.onChunkCalls = [("A", 0)] ∧
    executeGravityOpenAI envOpenAIFail =
      [[NodeJson.errorResp { message := "boom", stack := "", timestamp := 9 }],
       [NodeJson.errorResp { message := "boom", stack := "", timestamp := 9 }]] ∧
    ((executeGravityOpenAI envOpenAIFail).headD []).all (fun j => !j.isChunk) = true :=
  ⟨rfl, rfl, rfl⟩

/-- Claim C3, amended: when the fragment source fails mid-stream, the
streaming adapters do surface the failure — every output of
`GravityClaude.execute` / `GravityOpenAI.execute` is the single formatted
error response carrying the failure message — but the chunk envelopes
produced before the failure are discarded, not returned. -/
theorem midstream_failure_surfaced (envO : OpenAIExecEnv) (envC : ClaudeExecEnv)
    (msgO msgC : String)
    (hO : envO.stream.failure = some msgO) (hC : envC.stream.failure = some msgC) :
    executeGravityOpenAI envO =
      [[NodeJson.errorResp (formatErrorResponseJs msgO envO.now)],
       [NodeJson.errorResp (formatErrorResponseJs msgO envO.now)]] ∧
    executeGravityClaude envC =
      [[NodeJson.errorResp (formatErrorResponseJs msgC envC.now)],
       [NodeJson.errorResp (formatErrorResponseJs msgC envC.now)],
       [NodeJson.errorResp (formatErrorResponseJs msgC envC.now)]] := by
  constructor
  · simp [executeGravityOpenAI, sendOpenAIRequestRun, hO]
  · simp [executeGravityClaude, sendClaudeRequestRun, hC]

/-- Concrete GravityClaude invocation whose stream fails (for the claim C3
witness). -/
def envClaudeFailW : ClaudeExecEnv :=
  { model := "m", systemPrompt := "s", temperature := 1, maxTokens := 10
    userMessage := "hi", userMessageParse := .error ()
    advancedOptions := { state := none, progressMessage := none }
    stream := { chunks := [{ deltaText := some "B" }], failure := some "down" }, now := 4 }

/-- Witness for `midstream_failure_surfaced` at concrete invocations. -/
theorem midstream_failure_surfaced_witness :
    executeGravityOpenAI envOpenAIFail =
      [[NodeJson.errorResp (formatErrorResponseJs "boom" 9)],
       [NodeJson.errorResp (formatErrorResponseJs "boom" 9)]] ∧
    executeGravityClaude envClaudeFailW =
      [[NodeJson.errorResp (formatErrorResponseJs "down" 4)],
       [NodeJson.errorResp (formatErrorResponseJs "down" 4)],
       [NodeJson.errorResp (formatErrorResponseJs "down" 4)]] :=
  midstream_failure_surfaced envOpenAIFail envClaudeFailW "boom" "down" rfl rfl

/-- Claim C4: in both `sendClaudeRequest` and `sendOpenAIRequest`, each
non-empty fragment increments the count by exactly one and yields exactly
one chunk callback whose text is the fragment and whose index is the count
before the increment, in arrival order, while empty (or absent) fragments
yield no callback and no increment: the callback list is exactly the
spec-side `specChunkRecords` starting at count 0, and the final count is the
spec-side `specFragmentCount`. -/
theorem fragment_chunk_semantics (ccs : List ClaudeStreamChunk) (ocs : List OpenAIStreamChunk) :
    (sendClaudeRequestCore ccs).onChunkCalls
        = specChunkRecords (ccs.map ClaudeStreamChunk.fragment) 0 ∧
    (sendClaudeRequestCore ccs).chunkCount
        = specFragmentCount (ccs.map ClaudeStreamChunk.fragment) ∧
    (sendOpenAIRequestCore ocs).onChunkCalls
        = specChunkRecords (ocs.map OpenAIStreamChunk.fragment) 0 ∧
    (sendOpenAIRequestCore ocs).chunkCount
        = specFragmentCount (ocs.map OpenAIStreamChunk.fragment) := by
  rw [sendClaudeRequestCore_eq_spec, sendOpenAIRequestCore_eq_spec]
  exact ⟨rfl, rfl, rfl, rfl⟩

/-- Claim C6: for a stream that ends without failure, the `fullResponse`
both services resolve with is the ordered concatenation of all non-empty
fragments (`specFullText`); the single-space completion placeholder is never
part of it — it is only appended to the node's stream output, never to the
accumulator. -/
theorem fullText_is_concat_of_fragments (ccs : List ClaudeStreamChunk)
    (ocs : List OpenAIStreamChunk) :
    (sendClaudeRequestRun { chunks := ccs, failure := none }).2
        = .ok (specFullText (ccs.map ClaudeStreamChunk.fragment),
               specFragmentCount (ccs.map ClaudeStreamChunk.fragment)) ∧
    (sendOpenAIRequestRun { chunks := ocs, failure := none }).2
        = .ok (specFullText (ocs.map OpenAIStreamChunk.fragment),
               specFragmentCount (ocs.map OpenAIStreamChunk.fragment)) := by
  constructor
  · simp [sendClaudeRequestRun, sendClaudeRequestCore_eq_spec]
  · simp [sendOpenAIRequestRun, sendOpenAIRequestCore_eq_spec]

/-- Claim C5: for every invocation whose stream ends without failure (and,
for GravityClaude, with no state override given), the Stream output is the
per-fragment chunk list with exactly one completion record appended, whose
text is the single-space string, whose chunkIndex is the final fragment
count, and whose state is `complete`. -/
theorem completion_chunk_appended (envO : OpenAIExecEnv) (envC : ClaudeExecEnv)
    (hO : envO.stream.failure = none) (hC : envC.stream.failure = none)
    (hCo : envC.advancedOptions.state = none) :
    (executeGravityOpenAI envO).headD []
      = (sendOpenAIRequestCore envO.stream.chunks).onChunkCalls.map (fun call =>
          NodeJson.chunk (formatStreamChunkOpenAI envO.model call.1 call.2 envO.now none none)) ++
        [NodeJson.chunk { model := envO.model, text := " "
                          chunkIndex := (sendOpenAIRequestCore envO.stream.chunks).chunkCount
                          timestamp := envO.now, state := ChatState.complete
                          progressMessage := none }] ∧
    (executeGravityClaude envC).headD []
      = (sendClaudeRequestCore envC.stream.chunks).onChunkCalls.map (fun call =>
          NodeJson.chunk (formatStreamChunkBedrock envC.model call.1 call.2 envC.now)) ++
        [NodeJson.chunk { model := envC.model, text := " "
                          chunkIndex := (sendClaudeRequestCore envC.stream.chunks).chunkCount
                          timestamp := envC.now, state := ChatState.complete
                          progressMessage := none }] := by
  constructor
  · simp [executeGravityOpenAI, sendOpenAIRequestRun, hO,
      createCompletionChunkOpenAI, jsStateOr]
  · simp [executeGravityClaude, sendClaudeRequestRun, hC, createCompletionChunkBedrock]

/-- Concrete GravityOpenAI invocation with fragments `["Hel", "", "lo"]` (for
the claim C5 witness). -/
def envOpenAICompleteW : OpenAIExecEnv :=
  { items := [], model := "g", systemPrompt := "s", temperature := 1, maxTokens := 100
    userMessage := "hi", userMessageParse := .error (), baseURL := "", apiKey := "k"
    organizationId := none
    stream := { chunks := [{ deltaContent := some "Hel" }, { deltaContent := some "" },
                           { deltaContent := some "lo" }], failure := none }
    now := 7 }

/-- Concrete GravityClaude invocation with one fragment and no override (for
the claim C5 witness). -/
def envClaudeCompleteW : ClaudeExecEnv :=
  { model := "m", systemPrompt := "s", temperature := 1, maxTokens := 10
    userMessage := "hi", userMessageParse := .error ()
    advancedOptions := { state := none, progressMessage := none }
    stream := { chunks := [{ deltaText := some "A" }], failure := none }, now := 2 }

/-- Witness for `completion_chunk_appended` at concrete invocations:
three fragments with chunk indices 0 and 1 (the empty one dropped) and the
completion record at index 2, and the Claude case with one fragment. -/
theorem completion_chunk_appended_witness :
    (executeGravityOpenAI envOpenAICompleteW).headD [] =
      [NodeJson.chunk { model := "g", text := "Hel", chunkIndex := 0, timestamp := 7
                        state := ChatState.responding, progressMessage := none },
       NodeJson.chunk { model := "g", text := "lo", chunkIndex := 1, timestamp := 7
                        state := ChatState.responding, progressMessage := none },
       NodeJson.chunk { model := "g", text := " ", chunkIndex := 2, timestamp := 7
                        state := ChatState.complete, progressMessage := none }] ∧
    (executeGravityClaude envClaudeCompleteW).headD [] =
      [NodeJson.chunk { model := "m", text := "A", chunkIndex := 0, timestamp := 2
                        state := ChatState.responding, progressMessage := none },
       NodeJson.chunk { model := "m", text := " ", chunkIndex := 1, timestamp := 2
                        state := ChatState.complete, progressMessage := none }] := by
  have h := completion_chunk_appended envOpenAICompleteW envClaudeCompleteW rfl rfl rfl
  exact ⟨h.1, h.2⟩

/-- Follows the spec's words for the jsonData variant: "single values are
wrapped in a single-element sequence; arrays pass through unwrapped". -/
def specItemsOf : Json → List Json
  | .arr l => l
  | v => [v]

/-- Claim C7: when the jsonData paths of GravityOutput and GravityUpdate
receive a successfully parsed payload, exactly one envelope is published and
its `items` field is `specItemsOf` of the payload: the single-element
wrapping of a non-array payload, and the array itself, unchanged, for an
array payload. -/
theorem jsonData_items_wrapping (prov : String) (now : Nat) (rand : String)
    (p : OutputItemParams) (q : UpdateItemParams) (v w : Json)
    (hpty : p.outputType = MessageType.JSON_DATA) (hpv : p.jsonParse = .ok v)
    (hpc : p.chatId ≠ "") (hpo : p.conversationId ≠ "") (hpu : p.userId ≠ "")
    (hqty : q.updateType = MessageType.JSON_DATA) (hqw : q.jsonParse = .ok w) :
    (processOutputItem prov now rand p).map (fun r => r.1.map (fun pm => pm.2.jsonItems))
      = .ok [some (specItemsOf v)] ∧
    (processUpdateItem prov now rand q).map (fun r => r.1.map (fun pm => pm.2.jsonItems))
      = .ok [some (specItemsOf w)] := by
  constructor
  · unfold processOutputItem
    rw [if_neg (by simp [hpc, hpo, hpu])]
    rw [hpty]
    dsimp only
    rw [hpv]
    cases v <;> rfl
  · unfold processUpdateItem
    rw [hqty]
    dsimp only
    rw [hqw]
    cases w <;> rfl

/-- Concrete jsonData item parameters for the claim C7 witness: GravityOutput
receives the object payload `{"a": 1}` and GravityUpdate receives the array
payload `[{"a": 1}, {"a": 2}]`. -/
def pJsonObjW : OutputItemParams :=
  { itemJson := Json.null, chatId := "c", conversationId := "v", userId := "s"
    outputType := .JSON_DATA, advancedOptions := false, state := ChatState.active
    textContent := "", enableAudio := false
    jsonParse := .ok (Json.obj [("a", Json.num 1)])
    jsonDataFieldName := "data", imageUrl := "", imageAlt := ""
    toolName := "", actionType := "", errHandling := "throw" }

/-- Concrete jsonData update parameters (array payload) for the claim C7
witness. -/
def qJsonArrW : UpdateItemParams :=
  { chatId := "c", conversationId := "v", userId := "s"
    updateType := .JSON_DATA, advancedOptions := false, state := ChatState.active
    message := "", text := ""
    jsonParse := .ok (Json.arr [Json.obj [("a", Json.num 1)], Json.obj [("a", Json.num 2)]])
    jsonDataFieldName := "calls", metadataKey := "", metadataValue := "" }

/-- Witness for `jsonData_items_wrapping`: the object payload is wrapped in a
one-element array, the array payload passes through unchanged. -/
theorem jsonData_items_wrapping_witness :
    (processOutputItem "pr" 3 "r" pJsonObjW).map (fun r => r.1.map (fun pm => pm.2.jsonItems))
      = .ok [some [Json.obj [("a", Json.num 1)]]] ∧
    (processUpdateItem "pr" 3 "r" qJsonArrW).map (fun r => r.1.map (fun pm => pm.2.jsonItems))
      = .ok [some [Json.obj [("a", Json.num 1)], Json.obj [("a", Json.num 2)]]] := by
  have h := jsonData_items_wrapping "pr" 3 "r" pJsonObjW qJsonArrW
    (Json.obj [("a", Json.num 1)])
    (Json.arr [Json.obj [("a", Json.num 1)], Json.obj [("a", Json.num 2)]])
    rfl rfl (by decide) (by decide) (by decide) rfl rfl
  exact ⟨h.1, h.2⟩

/-- Claim C8: when the `jsonData` string parameter of a toolOutput item does
not parse as JSON, the item fails with the malformed-payload error
`"Invalid JSON data for tool output"`; the error result carries no published
messages, so no envelope is published. -/
theorem toolOutput_malformed_json_error (prov : String) (now : Nat) (rand : String)
    (p : OutputItemParams)
    (hty : p.outputType = MessageType.TOOL_OUTPUT) (hparse : p.jsonParse = .error ())
    (hc : p.chatId ≠ "") (ho : p.conversationId ≠ "") (hu : p.userId ≠ "") :
    processOutputItem prov now rand p = .error { message := "Invalid JSON data for tool output" } := by
  unfold processOutputItem
  rw [if_neg (by simp [hc, ho, hu])]
  rw [hty]
  dsimp only
  rw [hparse]

/-- Concrete toolOutput item parameters with a failing JSON parse (for the
claim C8 witness). -/
def pToolBadJsonW : OutputItemParams :=
  { itemJson := Json.null, chatId := "c", conversationId := "v", userId := "s"
    outputType := .TOOL_OUTPUT, advancedOptions := false, state := ChatState.active
    textContent := "", enableAudio := false, jsonParse := .error ()
    jsonDataFieldName := "data", imageUrl := "", imageAlt := ""
    toolName := "search", actionType := "", errHandling := "throw" }

/-- Witness for `toolOutput_malformed_json_error` at a concrete item. -/
theorem toolOutput_malformed_json_error_witness :
    processOutputItem "pr" 3 "r" pToolBadJsonW
      = .error { message := "Invalid JSON data for tool output" } :=
  toolOutput_malformed_json_error "pr" 3 "r" pToolBadJsonW rfl rfl
    (by decide) (by decide) (by decide)

/-- Claim C9: when chatId, conversationId or userId is empty, the item fails
with the `"Required IDs missing"` validation error; the check precedes the
base-event construction in `processOutputItem`, and the error result carries
no published messages, so no envelope is built or published.  When the
failing item comes first and the effective error strategy is the default
`"throw"`, the whole `GravityOutput.execute` invocation fails with that
error and its published log is empty. -/
theorem gravityOutput_empty_ids_validation (env : OutputEnv)
    (p : OutputItemParams) (rest : List OutputItemParams)
    (hempty : p.chatId = "" ∨ p.conversationId = "" ∨ p.userId = "")
    (hthrow : (if p.advancedOptions = true then p.errHandling else "throw") ≠ "continue")
    (hitems : env.items = p :: rest) :
    processOutputItem (mkProviderId env.workflowId env.nodeId) env.now env.rand p
        = .error { message := "Required IDs missing" } ∧
    executeGravityOutput env = ([], .error { message := "Required IDs missing" }) := by
  have hproc : processOutputItem (mkProviderId env.workflowId env.nodeId) env.now env.rand p
      = .error { message := "Required IDs missing" } := by
    unfold processOutputItem
    rw [if_pos (by rcases hempty with h | h | h <;> simp [h])]
  refine ⟨hproc, ?_⟩
  unfold executeGravityOutput
  rw [hitems]
  unfold outputLoop
  rw [hproc]
  dsimp only
  rw [if_neg hthrow]

/-- Item parameters with an empty userId (for the claim C9 witness). -/
def pEmptyUserW : OutputItemParams :=
  { itemJson := Json.null, chatId := "c", conversationId := "v", userId := ""
    outputType := .TEXT, advancedOptions := false, state := ChatState.active
    textContent := "hi", enableAudio := false, jsonParse := .error ()
    jsonDataFieldName := "data", imageUrl := "", imageAlt := ""
    toolName := "", actionType := "", errHandling := "throw" }

/-- Concrete GravityOutput invocation whose only item has an empty userId
(for the claim C9 witness). -/
def envOutputEmptyUserW : OutputEnv :=
  { serverUrl := "u", apiKey := "k", workflowId := some "w", nodeId := some "n"
    now := 3, rand := "r", items := [pEmptyUserW] }

/-- Witness for `gravityOutput_empty_ids_validation` at a concrete
invocation. -/
theorem gravityOutput_empty_ids_validation_witness :
    executeGravityOutput envOutputEmptyUserW
      = ([], .error { message := "Required IDs missing" }) :=
  (gravityOutput_empty_ids_validation envOutputEmptyUserW pEmptyUserW []
    (Or.inr (Or.inr rfl)) (by decide) rfl).2

/-- Claim C10: `GravityOpenAI.execute` never reads the main-input item list,
so with the clock and every other environment component fixed, two
invocations that differ only in the input items produce identical Stream and
Result outputs. -/
theorem gravityOpenAI_ignores_input_items (env : OpenAIExecEnv) (a b : List Json) :
    executeGravityOpenAI { env with items := a }
      = executeGravityOpenAI { env with items := b } := rfl
